import Mathlib

/-!
Shallow embedding of the MCP-Local-Remote-Client repository
(capability registry + dispatch engine + LM Studio inference adapter),
translated from:

  src/mcp_server.py          (MCPServerImpl: list_tools, call_tool, list_resources,
                              _is_tool_enabled)
  src/utils/helpers.py       (load_config, validate_tool_input)
  src/tools/file_tools.py    (FileTools path containment check)
  src/tools/data_tools.py    (DataTools._filter_data, _evaluate_condition)
  src/tools/lm_studio_tools.py (LMStudioTools.generate_text, list_models,
                              test_connection)

Python JSON-like values are modelled by the inductive `Value`; Python dicts
are association lists with string keys (all dicts manipulated by this code
have string keys).  Network I/O is modelled by an abstract `HttpClient`
record of response functions, and backend side effects by abstract
functions, with an explicit log of which backend operations were invoked.
Floating point literals appearing in the code (e.g. the default temperature
0.7) are carried as exact rationals: the code only forwards them as opaque
payload, never computes with them.
-/

/-- A JSON-like Python value. -/
inductive Value where
  | null : Value
  | bool : Bool → Value
  | num : Int → Value
  | float : Rat → Value
  | str : String → Value
  | list : List Value → Value
  | dict : List (String × Value) → Value
deriving Repr

/-- Python first-match lookup of a key in a (string-keyed) dict. -/
def lookupA (kvs : List (String × Value)) (k : String) : Option Value :=
  match kvs with
  | [] => none
  | (k', v) :: rest => if k' = k then some v else lookupA rest k

/-- Python `d.get(k, default)` on a string-keyed dict. -/
def dGetD (kvs : List (String × Value)) (k : String) (d : Value) : Value :=
  match lookupA kvs k with
  | some v => v
  | none => d

/-- Python `v.get(k, default)` where `v` is any value: raises
`AttributeError` when `v` is not a dict. -/
def pyGetAttr (v : Value) (k : String) (d : Value) : Except String Value :=
  match v with
  | .dict kvs => .ok (dGetD kvs k d)
  | _ => .error "AttributeError: object has no attribute get"

/-- Python truthiness of a value. -/
def pyTruthy (v : Value) : Bool :=
  match v with
  | .null => false
  | .bool b => b
  | .num n => n ≠ 0
  | .float q => q ≠ 0
  | .str s => s ≠ ""
  | .list xs => !xs.isEmpty
  | .dict kvs => !kvs.isEmpty

/-- Python `str(v)` (used only to render scalar payloads into message text;
container rendering is approximated, no claim constrains it). -/
def pyStr (v : Value) : String :=
  match v with
  | .null => "None"
  | .bool b => if b then "True" else "False"
  | .num n => toString n
  | .float q => toString q
  | .str s => s
  | .list _ => "[...]"
  | .dict _ => "{...}"

/-- Models `json.dumps(v, indent=2)` as an opaque serialization; no claim
constrains the serialized text of a success payload. -/
def dumps (v : Value) : String := pyStr v

/-- The argument bag of an invocation: a string-keyed Python dict. -/
abbrev Args := List (String × Value)

/-- Python `arguments[k]`: raises `KeyError(k)` when absent;
`str(KeyError(k))` is the key wrapped in single quotes. -/
def pyIndex (args : Args) (k : String) : Except String Value :=
  match lookupA args k with
  | some v => .ok v
  | none => .error ("'" ++ k ++ "'")

/-- Python `d[k]` on a general value: `KeyError` on a dict missing the key,
`TypeError` on non-dict subscripting with a string key. -/
def pyIndexV (v : Value) (k : String) : Except String Value :=
  match v with
  | .dict kvs => pyIndex kvs k
  | _ => .error "TypeError: value is not subscriptable by string"

/-- One entry of the uniform result envelope: `{"text": ..., "isError": ...}`.
Success entries in the source omit the `isError` key, modelled as `false`. -/
structure Entry where
  text : String
  isError : Bool
deriving Repr, DecidableEq

/-! ## src/utils/helpers.py -/

/-- The possible outcomes of opening and parsing the configuration file,
abstracting the file system and `json.load`. -/
inductive ConfigSource where
  | absent                 -- config file does not exist
  | malformed              -- json.JSONDecodeError while parsing
  | unreadable             -- any other exception while loading
  | parsed (v : Value)     -- successfully parsed JSON document

/-- `load_config`: absent, malformed or unreadable files all yield the empty
configuration dict instead of failing startup. -/
def load_config (src : ConfigSource) : Value :=
  match src with
  | .absent => .dict []
  | .malformed => .dict []
  | .unreadable => .dict []
  | .parsed v => v

/-- `validate_tool_input`: reads the required-field list from
`schema.get("properties", {}).get("required", [])` and checks each listed
field is a present key of `arguments`. -/
def validate_tool_input (tool_name : String) (arguments : Args)
    (schema : List (String × Value)) : Bool :=
  let required :=
    match dGetD schema "properties" (.dict []) with
    | .dict ps => dGetD ps "required" (.list [])
    -- Python `.get` on a non-dict `properties` raises AttributeError;
    -- every schema in this server has a dict `properties`.
    | _ => .list []
  match required with
  | .list fs => fs.all fun f =>
      match f with
      | .str s => (lookupA arguments s).isSome
      -- a non-string field is never a key of the string-keyed argument dict
      | _ => false
  -- the default and every schema in this server give a list here
  | _ => true

/-! ## String helpers

Character-list implementations of the Python string operations the code
relies on (`in`, `split`, `strip`, `startswith`); they are structurally
recursive so that concrete instances evaluate inside the kernel. -/

/-- Split a character list at every occurrence of `sep`
(Python `s.split(sep)` for a one-character separator). -/
def splitChar (sep : Char) : List Char → List (List Char)
  | [] => [[]]
  | c :: rest =>
    if c = sep then [] :: splitChar sep rest
    else
      match splitChar sep rest with
      | [] => [[c]]
      | g :: gs => (c :: g) :: gs

/-- First occurrence of `sep` inside a character list: the part before it
and the part after it. -/
def findSub (sep : List Char) : List Char → Option (List Char × List Char)
  | [] => if sep.isEmpty then some ([], []) else none
  | c :: rest =>
    if sep.isPrefixOf (c :: rest) then some ([], (c :: rest).drop sep.length)
    else
      match findSub sep rest with
      | none => none
      | some (pre, post) => some (c :: pre, post)

/-- Python `a.startswith(b)`. -/
def strStartsWith (a b : String) : Bool := b.data.isPrefixOf a.data

/-- Python `s.strip()`: whitespace removed from both ends. -/
def pyStrip (s : String) : String :=
  String.mk (((s.data.dropWhile Char.isWhitespace).reverse.dropWhile
    Char.isWhitespace).reverse)

/-! ## src/tools/file_tools.py

POSIX paths are modelled as strings; `Path.resolve` is modelled by lexical
normalization (symbolic links are not modelled).  The FileTools base path is
taken in already-resolved absolute form, as `Path(base_path).resolve()`
produces in `FileTools.__init__`. -/

/-- Normalize path components the way `Path.resolve` does lexically: drop
empty and `.` components, let `..` remove the preceding component (and
vanish at the root). -/
def normComps (cs : List String) : List String :=
  cs.foldl (fun acc c =>
    if c = "" ∨ c = "." then acc
    else if c = ".." then acc.dropLast
    else acc ++ [c]) []

/-- `str(Path(s).resolve())` for an absolute path string `s`. -/
def resolvePath (s : String) : String :=
  "/" ++ String.intercalate "/" (normComps ((splitChar '/' s.data).map String.mk))

/-- Python `Path(base) / rel`: an absolute `rel` replaces `base`. -/
def joinPath (base rel : String) : String :=
  if strStartsWith rel "/" then rel else base ++ "/" ++ rel

/-- The containment check shared by `read_file`, `write_file`, `list_files`
and `delete_file`:
`str(full_path.resolve()).startswith(str(self.base_path.resolve()))`. -/
def pathCheckAllows (base rel : String) : Bool :=
  strStartsWith (resolvePath (joinPath base rel)) (resolvePath base)

/-- Modelled from the spec: "every path is resolved and must remain a
descendant of the root".  A resolved path is a descendant of the root when
it equals the root or extends it at a path-component boundary. -/
def isDescendant (base resolved : String) : Bool :=
  resolved == resolvePath base || strStartsWith resolved (resolvePath base ++ "/")

/-- `FileTools.read_file` over an abstract file system mapping resolved
absolute paths to contents. -/
def read_file (fs : String → Option String) (base rel : String) :
    Except String String :=
  if !pathCheckAllows base rel then .error "Path outside allowed directory"
  else
    match fs (resolvePath (joinPath base rel)) with
    | none => .error ("File not found: " ++ rel)
    | some content => .ok content

/-- `FileTools.write_file` over the same abstract file system; returns the
updated file system and the success message. -/
def write_file (fs : String → Option String) (base rel content : String) :
    Except String ((String → Option String) × String) :=
  if !pathCheckAllows base rel then .error "Path outside allowed directory"
  else
    let full := resolvePath (joinPath base rel)
    .ok (fun p => if p = full then some content else fs p,
         "Successfully wrote to " ++ rel)

/-! ## src/tools/data_tools.py -/

/-- Python substring test `sub in s`. -/
def containsSub (s sub : String) : Bool := (findSub sub.data s.data).isSome

/-- Python `s.split(sep, 1)`: split at the first occurrence only. -/
def splitOnce (s sep : String) : String × String :=
  match findSub sep.data s.data with
  | none => (s, "")
  | some (pre, post) => (String.mk pre, String.mk post)

/-- Python `s.strip(chars)`: remove the listed characters from both ends. -/
def stripChars (s : String) (cs : List Char) : String :=
  String.mk (((s.toList.dropWhile (fun c => cs.contains c)).reverse.dropWhile
    (fun c => cs.contains c)).reverse)

/-- `DataTools._evaluate_condition`: on a dict item whose condition contains
`"=="`, compare `str(item.get(key, ""))` with the quote-stripped right-hand
side; every other case returns `True`. -/
def evaluate_condition (item : Value) (condition : String) : Bool :=
  match item with
  | .dict kvs =>
    if containsSub condition "==" then
      let p := splitOnce condition "=="
      let key := pyStrip p.1
      let value := stripChars (pyStrip p.2) ['"', '\x27']
      pyStr (dGetD kvs key (.str "")) == value
    else true
  | _ => true

/-- `DataTools._filter_data`: keep the items satisfying the condition; a
falsy (absent or empty) condition returns the data unchanged, as does
non-list data. -/
def filter_data (data : Value) (condition : Option String) : Value :=
  match data with
  | .list xs =>
    match condition with
    | some c =>
      if c ≠ "" then .list (xs.filter (fun i => evaluate_condition i c)) else data
    | none => data
  | _ => data

/-! ## src/tools/lm_studio_tools.py

HTTP traffic is modelled by an abstract client: each request either raises
`httpx.ConnectError` or completes with a status code and a parsed JSON body
(`response.json()`).  Each operation additionally returns the ordered list
of HTTP requests it issued. -/

/-- Outcome of one HTTP request. -/
inductive HttpResult where
  | resp (status : Nat) (body : Value)
  | connectError
deriving Repr

/-- An abstract `httpx.AsyncClient`: the gateway's behavior per request. -/
structure HttpClient where
  get : String → HttpResult
  post : String → Value → HttpResult

/-- A logged outgoing HTTP request. -/
inductive Req where
  | get (url : String)
  | post (url : String) (body : Value)
deriving Repr

/-- The `httpx.ConnectError` message raised by `generate_text` and
`chat_completion`. -/
def connectErrMsg (base : String) : String :=
  "Cannot connect to LM Studio at " ++ base ++
    ". Make sure LM Studio is running with the local server enabled."

/-- Default-model resolution inside `generate_text`/`chat_completion`:
`models_data.get("data")` must be truthy and non-empty, then the model is
`data[0]["id"]`; otherwise "No models available in LM Studio" is raised. -/
def resolveModelFromBody (body : Value) : Except String Value :=
  match pyGetAttr body "data" .null with
  | .error e => .error e
  | .ok data =>
    match data with
    | .list (m :: _) => pyIndexV m "id"
    | .list [] => .error "No models available in LM Studio"
    | d =>
      if pyTruthy d then
        -- a truthy non-list `data` makes Python's len()/indexing raise;
        -- the §6 gateway interface always sends a list here
        .error "TypeError: unsupported models payload"
      else .error "No models available in LM Studio"

/-- The JSON body POSTed to `/v1/completions`. -/
def completionBody (model prompt max_tokens temperature : Value) : Value :=
  .dict [("model", model), ("prompt", prompt), ("max_tokens", max_tokens),
         ("temperature", temperature)]

/-- `result.get("choices", [{}])[0]`: the default makes the index succeed on
an absent key, but an explicitly empty `choices` list raises IndexError. -/
def firstChoice (rbody : Value) : Except String Value :=
  match pyGetAttr rbody "choices" (.list [.dict []]) with
  | .error e => .error e
  | .ok (.list []) => .error "list index out of range"
  | .ok (.list (ch :: _)) => .ok ch
  | .ok _ => .error "TypeError: value is not subscriptable"

/-- The success payload of `generate_text`:
`{"text", "model", "usage", "finish_reason"}`. -/
def genPayload (m rbody : Value) : Except String Value :=
  match firstChoice rbody with
  | .error e => .error e
  | .ok ch =>
    match pyGetAttr ch "text" (.str "") with
    | .error e => .error e
    | .ok generated =>
      match pyGetAttr rbody "usage" (.dict []) with
      | .error e => .error e
      | .ok usage =>
        match pyGetAttr ch "finish_reason" (.str "") with
        | .error e => .error e
        | .ok fr =>
          .ok (.dict [("text", generated), ("model", m), ("usage", usage),
                      ("finish_reason", fr)])

/-- `LMStudioTools.generate_text`: resolve the model when the caller gave a
falsy one (one extra GET), POST the completion, map HTTP failures to the
adapter's error messages.  Returns the result and the issued requests. -/
def generate_text (c : HttpClient) (base : String)
    (prompt model max_tokens temperature : Value) :
    Except String Value × List Req :=
  let step1 : Except String Value × List Req :=
    if pyTruthy model then (.ok model, [])
    else
      match c.get (base ++ "/v1/models") with
      | .connectError => (.error (connectErrMsg base), [.get (base ++ "/v1/models")])
      | .resp _ body => (resolveModelFromBody body, [.get (base ++ "/v1/models")])
  match step1 with
  | (.error e, log) => (.error e, log)
  | (.ok m, log) =>
    let url := base ++ "/v1/completions"
    let outBody := completionBody m prompt max_tokens temperature
    match c.post url outBody with
    | .connectError => (.error (connectErrMsg base), log ++ [.post url outBody])
    | .resp st rbody =>
      if 400 ≤ st then
        -- response.raise_for_status() → httpx.HTTPStatusError branch
        (.error ("LM Studio API error: " ++ toString st), log ++ [.post url outBody])
      else (genPayload m rbody, log ++ [.post url outBody])

/-- `LMStudioTools.list_models`: GET the model list; a connection failure
raises the adapter's message; a 4xx/5xx status raises `httpx`'s status
error (its exact text is library-owned, modelled as naming the status);
otherwise return `models_data.get("data", [])`. -/
def list_models (c : HttpClient) (base : String) :
    Except String Value × List Req :=
  match c.get (base ++ "/v1/models") with
  | .connectError =>
    (.error "Cannot connect to LM Studio. Make sure it's running.",
     [.get (base ++ "/v1/models")])
  | .resp st body =>
    if 400 ≤ st then
      (.error ("Client error or server error in response: " ++ toString st),
       [.get (base ++ "/v1/models")])
    else (pyGetAttr body "data" (.list []), [.get (base ++ "/v1/models")])

/-- The list comprehension `[m.get(k, d) for m in vs]`: left to right, the
first raised `AttributeError` propagates. -/
def mapGetAttr (k : String) (d : Value) : List Value → Except String (List Value)
  | [] => .ok []
  | v :: rest =>
    match pyGetAttr v k d with
    | .error e => .error e
    | .ok x =>
      match mapGetAttr k d rest with
      | .error e => .error e
      | .ok xs => .ok (x :: xs)

/-- The `len(models)` and `[m.get("id", "unknown") for m in models]`
computations of `test_connection`; both happen inside its `try`. -/
def connectedModels (models : Value) : Except String (Nat × List Value) :=
  match models with
  | .list ms =>
    match mapGetAttr "id" (.str "unknown") ms with
    | .error e => .error e
    | .ok ids => .ok (ms.length, ids)
  | _ => .error "TypeError: object has no len"

/-- `LMStudioTools.test_connection`: call `list_models`, catch every
failure locally, and report either a connected record with the model count
and ids or a disconnected record with the error message. -/
def test_connection (c : HttpClient) (base : String) : Value :=
  match (list_models c base).1 with
  | .error e =>
    .dict [("status", .str "disconnected"), ("url", .str base),
           ("error", .str e)]
  | .ok models =>
    match connectedModels models with
    | .error e =>
      .dict [("status", .str "disconnected"), ("url", .str base),
             ("error", .str e)]
    | .ok (n, ids) =>
      .dict [("status", .str "connected"), ("url", .str base),
             ("models_count", .num n), ("models", .list ids)]

/-! ## src/mcp_server.py — static tool catalog -/

/-- An `mcp.types.Tool` descriptor as built by `list_tools`. -/
structure SrcTool where
  name : String
  description : String
  inputSchema : Value
deriving Repr

def readFileProps : List (String × Value) :=
  [("path", .dict [("type", .str "string"),
                   ("description", .str "Path to the file to read")])]

def readFileSchema : List (String × Value) :=
  [("type", .str "object"), ("properties", .dict readFileProps),
   ("required", .list [.str "path"])]

def readFileTool : SrcTool :=
  { name := "read_file"
    description := "Read content from a file"
    inputSchema := .dict readFileSchema }

def writeFileProps : List (String × Value) :=
  [("path", .dict [("type", .str "string"),
                   ("description", .str "Path to the file to write")]),
   ("content", .dict [("type", .str "string"),
                      ("description", .str "Content to write to the file")])]

def writeFileSchema : List (String × Value) :=
  [("type", .str "object"), ("properties", .dict writeFileProps),
   ("required", .list [.str "path", .str "content"])]

def writeFileTool : SrcTool :=
  { name := "write_file"
    description := "Write content to a file"
    inputSchema := .dict writeFileSchema }

def listFilesProps : List (String × Value) :=
  [("directory", .dict [("type", .str "string"),
                        ("description", .str "Directory path to list")])]

def listFilesSchema : List (String × Value) :=
  [("type", .str "object"), ("properties", .dict listFilesProps),
   ("required", .list [.str "directory"])]

def listFilesTool : SrcTool :=
  { name := "list_files"
    description := "List files in a directory"
    inputSchema := .dict listFilesSchema }

def callApiProps : List (String × Value) :=
  [("url", .dict [("type", .str "string"),
                  ("description", .str "API endpoint URL")]),
   ("method", .dict [("type", .str "string"),
                     ("enum", .list [.str "GET", .str "POST", .str "PUT", .str "DELETE"]),
                     ("description", .str "HTTP method")]),
   ("headers", .dict [("type", .str "object"),
                      ("description", .str "HTTP headers")]),
   ("body", .dict [("type", .str "object"),
                   ("description", .str "Request body")])]

def callApiSchema : List (String × Value) :=
  [("type", .str "object"), ("properties", .dict callApiProps),
   ("required", .list [.str "url", .str "method"])]

def callApiTool : SrcTool :=
  { name := "call_api"
    description := "Make an HTTP API call"
    inputSchema := .dict callApiSchema }

def processDataProps : List (String × Value) :=
  [("data", .dict [("type", .str "string"),
                   ("description", .str "Data to process (JSON string)")]),
   ("operation", .dict [("type", .str "string"),
                        ("enum", .list [.str "filter", .str "sort", .str "transform", .str "aggregate"]),
                        ("description", .str "Operation to perform")])]

def processDataSchema : List (String × Value) :=
  [("type", .str "object"), ("properties", .dict processDataProps),
   ("required", .list [.str "data", .str "operation"])]

def processDataTool : SrcTool :=
  { name := "process_data"
    description := "Process and transform data"
    inputSchema := .dict processDataSchema }

def lmGenerateProps : List (String × Value) :=
  [("prompt", .dict [("type", .str "string"),
                     ("description", .str "Input prompt for text generation")]),
   ("model", .dict [("type", .str "string"),
                    ("description", .str "Model name (optional, uses default if not specified)")]),
   ("max_tokens", .dict [("type", .str "integer"),
                         ("description", .str "Maximum tokens to generate"),
                         ("default", .num 100)]),
   ("temperature", .dict [("type", .str "number"),
                          ("description", .str "Sampling temperature (0.0-1.0)"),
                          ("default", .float (7/10))])]

def lmGenerateSchema : List (String × Value) :=
  [("type", .str "object"), ("properties", .dict lmGenerateProps),
   ("required", .list [.str "prompt"])]

def lmGenerateTool : SrcTool :=
  { name := "lm_studio_generate"
    description := "Generate text using LM Studio local LLM"
    inputSchema := .dict lmGenerateSchema }

def lmChatProps : List (String × Value) :=
  [("messages", .dict [
     ("type", .str "array"),
     ("description", .str "List of messages with 'role' and 'content'"),
     ("items", .dict [
       ("type", .str "object"),
       ("properties", .dict [
         ("role", .dict [("type", .str "string"),
                         ("enum", .list [.str "user", .str "assistant", .str "system"])]),
         ("content", .dict [("type", .str "string")])]),
       ("required", .list [.str "role", .str "content"])])]),
   ("model", .dict [("type", .str "string"),
                    ("description", .str "Model name (optional)")]),
   ("temperature", .dict [("type", .str "number"),
                          ("description", .str "Sampling temperature"),
                          ("default", .float (7/10))]),
   ("max_tokens", .dict [("type", .str "integer"),
                         ("description", .str "Maximum tokens to generate"),
                         ("default", .num 500)])]

def lmChatSchema : List (String × Value) :=
  [("type", .str "object"), ("properties", .dict lmChatProps),
   ("required", .list [.str "messages"])]

def lmChatTool : SrcTool :=
  { name := "lm_studio_chat"
    description := "Chat completion using LM Studio local LLM"
    inputSchema := .dict lmChatSchema }

def lmListModelsProps : List (String × Value) := []

def lmListModelsSchema : List (String × Value) :=
  [("type", .str "object"), ("properties", .dict lmListModelsProps)]

def lmListModelsTool : SrcTool :=
  { name := "lm_studio_list_models"
    description := "List available models in LM Studio"
    inputSchema := .dict lmListModelsSchema }

def lmTestConnectionProps : List (String × Value) := []

def lmTestConnectionSchema : List (String × Value) :=
  [("type", .str "object"), ("properties", .dict lmTestConnectionProps)]

def lmTestConnectionTool : SrcTool :=
  { name := "lm_studio_test_connection"
    description := "Test connection to LM Studio"
    inputSchema := .dict lmTestConnectionSchema }

/-! ## src/mcp_server.py — registry and listing -/

/-- `MCPServerImpl._is_tool_enabled`:
`tool_name in self.config.get("tools", {}).get("enabled", [])`. -/
def _is_tool_enabled (config : Value) (tool_name : String) : Bool :=
  let enabled :=
    match config with
    | .dict kvs =>
      match dGetD kvs "tools" (.dict []) with
      | .dict ts => dGetD ts "enabled" (.list [])
      -- `.get` on a non-dict raises AttributeError; configurations are dicts
      | _ => .list []
    | _ => .list []
  match enabled with
  | .list xs => xs.any (fun v => match v with | .str s => s = tool_name | _ => false)
  -- Python `in` on a string is a substring test, on a dict a key test
  | .str s => containsSub s tool_name
  | .dict kvs => kvs.any (fun kv => kv.1 = tool_name)
  -- `in` on the remaining shapes raises TypeError; configurations list names
  | _ => false

/-- `list_tools`: the descriptors appended in declaration order, each gated
on its enablement (the four LM Studio descriptors additionally on the
adapter being constructed). -/
def list_tools (config : Value) (lm_studio_present : Bool) : List SrcTool :=
  (if _is_tool_enabled config "read_file" then [readFileTool] else []) ++
  (if _is_tool_enabled config "write_file" then [writeFileTool] else []) ++
  (if _is_tool_enabled config "list_files" then [listFilesTool] else []) ++
  (if _is_tool_enabled config "call_api" then [callApiTool] else []) ++
  (if _is_tool_enabled config "process_data" then [processDataTool] else []) ++
  (if lm_studio_present && _is_tool_enabled config "lm_studio_generate" then [lmGenerateTool] else []) ++
  (if lm_studio_present && _is_tool_enabled config "lm_studio_chat" then [lmChatTool] else []) ++
  (if lm_studio_present && _is_tool_enabled config "lm_studio_list_models" then [lmListModelsTool] else []) ++
  (if lm_studio_present && _is_tool_enabled config "lm_studio_test_connection" then [lmTestConnectionTool] else [])

/-- An `mcp.types.Resource` as built by `list_resources`. -/
structure SrcResource where
  uri : String
  name : String
  description : String
  mimeType : String
deriving Repr, DecidableEq

/-- `list_resources`: one data-directory resource when
`config.get("resources", {}).get("enabled", False)` is truthy, else none. -/
def list_resources (config : Value) : List SrcResource :=
  let resCfg :=
    match config with
    | .dict kvs => dGetD kvs "resources" (.dict [])
    | _ => .dict []
  let enabled :=
    match resCfg with
    | .dict kvs => dGetD kvs "enabled" (.bool false)
    | _ => .bool false
  if pyTruthy enabled then
    let base :=
      match resCfg with
      | .dict kvs => dGetD kvs "base_path" (.str "./data")
      | _ => .str "./data"
    [{ uri := "file://" ++ pyStr base, name := "Data Directory",
       description := "Access to data files", mimeType := "application/json" }]
  else []

/-! ## src/mcp_server.py — dispatch (`call_tool`)

Backend operations are abstract functions returning either a payload or a
raised failure message; the dispatch additionally returns the ordered log
of backend operations it actually invoked. -/

/-- The non-LM backend operations available to `call_tool`. -/
structure Backends where
  read_file : Value → Except String String
  write_file : Value → Value → Except String String
  list_files : Value → Except String Value
  call_api : Value → Value → Value → Value → Except String Value
  process_data : Value → Value → Except String Value

/-- The LM Studio adapter operations used by `call_tool`
(`self.lm_studio`, present only when inference is enabled). -/
structure LMOps where
  generate_text : Value → Value → Value → Value → Except String Value
  chat_completion : Value → Value → Value → Value → Except String Value
  list_models : Except String Value
  test_connection : Except String Value

/-- One invoked backend operation, with the arguments it received. -/
inductive BCall where
  | read_file (path : Value)
  | write_file (path content : Value)
  | list_files (directory : Value)
  | call_api (url method headers body : Value)
  | process_data (data operation : Value)
  | lm_generate (prompt model max_tokens temperature : Value)
  | lm_chat (messages model temperature max_tokens : Value)
  | lm_list_models
  | lm_test_connection
deriving Repr

/-- The success text of the `lm_studio_generate` branch, built from the
adapter's result dict (`result['text']`, `result['model']`,
`result.get('usage', {}).get('total_tokens', 'N/A')`). -/
def genEntryText (res : Value) : Except String String :=
  match pyIndexV res "text" with
  | .error e => .error e
  | .ok t =>
    match pyIndexV res "model" with
    | .error e => .error e
    | .ok m =>
      match pyGetAttr res "usage" (.dict []) with
      | .error e => .error e
      | .ok usage =>
        match pyGetAttr usage "total_tokens" (.str "N/A") with
        | .error e => .error e
        | .ok tt =>
          .ok ("Generated text:\n" ++ pyStr t ++ "\n\nModel: " ++ pyStr m ++
               "\nTokens used: " ++ pyStr tt)

/-- The success text of the `lm_studio_chat` branch
(`result.get("message", {})`, `message.get('content', '')`,
`result.get('model', 'N/A')`). -/
def chatEntryText (res : Value) : Except String String :=
  match pyGetAttr res "message" (.dict []) with
  | .error e => .error e
  | .ok msg =>
    match pyGetAttr msg "content" (.str "") with
    | .error e => .error e
    | .ok content =>
      match pyGetAttr res "model" (.str "N/A") with
      | .error e => .error e
      | .ok m => .ok ("Assistant: " ++ pyStr content ++ "\n\nModel: " ++ pyStr m)

/-- The success text of the `lm_studio_list_models` branch
(`[m.get("id", "unknown") for m in models]`). -/
def listModelsEntryText (models : Value) : Except String String :=
  match models with
  | .list ms =>
    match mapGetAttr "id" (.str "unknown") ms with
    | .error e => .error e
    | .ok ids => .ok ("Available models in LM Studio:\n" ++ dumps (.list ids))
  | _ => .error "TypeError: object is not iterable"

/-- The body of `call_tool`'s `try` block: dispatch on the tool name,
reading arguments exactly as the source does (direct indexing raises
`KeyError`, `.get` supplies the coded defaults), invoke the matching
backend, and shape the success entries.  Anything raised is the `.error`. -/
def run_call (lm : Option LMOps) (bk : Backends) (name : String) (args : Args) :
    Except String (List Entry) × List BCall :=
  match name with
  | "read_file" =>
    match pyIndex args "path" with
    | .error e => (.error e, [])
    | .ok path =>
      (match bk.read_file path with
       | .error e => .error e
       | .ok s => .ok [⟨s, false⟩],
       [.read_file path])
  | "write_file" =>
    match pyIndex args "path" with
    | .error e => (.error e, [])
    | .ok path =>
      match pyIndex args "content" with
      | .error e => (.error e, [])
      | .ok content =>
        (match bk.write_file path content with
         | .error e => .error e
         | .ok s => .ok [⟨"File written successfully: " ++ s, false⟩],
         [.write_file path content])
  | "list_files" =>
    match pyIndex args "directory" with
    | .error e => (.error e, [])
    | .ok directory =>
      (match bk.list_files directory with
       | .error e => .error e
       | .ok v => .ok [⟨dumps v, false⟩],
       [.list_files directory])
  | "call_api" =>
    match pyIndex args "url" with
    | .error e => (.error e, [])
    | .ok url =>
      (match bk.call_api url (dGetD args "method" (.str "GET"))
          (dGetD args "headers" (.dict [])) (dGetD args "body" .null) with
       | .error e => .error e
       | .ok v => .ok [⟨dumps v, false⟩],
       [.call_api url (dGetD args "method" (.str "GET"))
          (dGetD args "headers" (.dict [])) (dGetD args "body" .null)])
  | "process_data" =>
    match pyIndex args "data" with
    | .error e => (.error e, [])
    | .ok data =>
      match pyIndex args "operation" with
      | .error e => (.error e, [])
      | .ok operation =>
        (match bk.process_data data operation with
         | .error e => .error e
         | .ok v => .ok [⟨dumps v, false⟩],
         [.process_data data operation])
  | "lm_studio_generate" =>
    match lm with
    | none => (.error "Unknown tool: lm_studio_generate", [])
    | some l =>
      match pyIndex args "prompt" with
      | .error e => (.error e, [])
      | .ok prompt =>
        (match l.generate_text prompt (dGetD args "model" .null)
            (dGetD args "max_tokens" (.num 100)) (dGetD args "temperature" (.float (7/10))) with
         | .error e => .error e
         | .ok res =>
           match genEntryText res with
           | .error e => .error e
           | .ok t => .ok [⟨t, false⟩],
         [.lm_generate prompt (dGetD args "model" .null)
            (dGetD args "max_tokens" (.num 100)) (dGetD args "temperature" (.float (7/10)))])
  | "lm_studio_chat" =>
    match lm with
    | none => (.error "Unknown tool: lm_studio_chat", [])
    | some l =>
      match pyIndex args "messages" with
      | .error e => (.error e, [])
      | .ok messages =>
        (match l.chat_completion messages (dGetD args "model" .null)
            (dGetD args "temperature" (.float (7/10))) (dGetD args "max_tokens" (.num 500)) with
         | .error e => .error e
         | .ok res =>
           match chatEntryText res with
           | .error e => .error e
           | .ok t => .ok [⟨t, false⟩],
         [.lm_chat messages (dGetD args "model" .null)
            (dGetD args "temperature" (.float (7/10))) (dGetD args "max_tokens" (.num 500))])
  | "lm_studio_list_models" =>
    match lm with
    | none => (.error "Unknown tool: lm_studio_list_models", [])
    | some l =>
      (match l.list_models with
       | .error e => .error e
       | .ok models =>
         match listModelsEntryText models with
         | .error e => .error e
         | .ok t => .ok [⟨t, false⟩],
       [.lm_list_models])
  | "lm_studio_test_connection" =>
    match lm with
    | none => (.error "Unknown tool: lm_studio_test_connection", [])
    | some l =>
      (match l.test_connection with
       | .error e => .error e
       | .ok status => .ok [⟨dumps status, false⟩],
       [.lm_test_connection])
  | _ => (.error ("Unknown tool: " ++ name), [])

/-- `call_tool`: the dispatch wrapped in `try/except` — any raised message
`m` becomes the single-entry envelope `[{"text": "Error: " + m,
"isError": True}]`. -/
def call_tool (lm : Option LMOps) (bk : Backends) (name : String) (args : Args) :
    List Entry × List BCall :=
  match run_call lm bk name args with
  | (.ok entries, log) => (entries, log)
  | (.error m, log) => ([⟨"Error: " ++ m, true⟩], log)

/-! ## Fixtures: concrete backend and gateway behaviors used in theorems -/

/-- A backend assignment where every operation succeeds. -/
def okBackends : Backends :=
  { read_file := fun _ => .ok "file content"
    write_file := fun _ _ => .ok "ok"
    list_files := fun _ => .ok (.list [])
    call_api := fun _ _ _ _ => .ok (.str "api response")
    process_data := fun _ _ => .ok (.list []) }

/-- A backend assignment where every operation raises message `m`. -/
def failingBackends (m : String) : Backends :=
  { read_file := fun _ => .error m
    write_file := fun _ _ => .error m
    list_files := fun _ => .error m
    call_api := fun _ _ _ _ => .error m
    process_data := fun _ _ => .error m }

/-- An LM Studio adapter whose every operation raises message `m`. -/
def failingLM (m : String) : LMOps :=
  { generate_text := fun _ _ _ _ => .error m
    chat_completion := fun _ _ _ _ => .error m
    list_models := .error m
    test_connection := .error m }

/-- The names `call_tool` has dispatch branches for. -/
def dispatchNames : List String :=
  ["read_file", "write_file", "list_files", "call_api", "process_data",
   "lm_studio_generate", "lm_studio_chat", "lm_studio_list_models",
   "lm_studio_test_connection"]

/-- A configuration enabling only the `read_file` tool. -/
def cfgReadOnly : Value :=
  .dict [("tools", .dict [("enabled", .list [.str "read_file"])])]

/-! ## General dispatch lemmas -/

/-- `call_tool` is `run_call` with errors rendered as the single error
entry, the backend-call log passed through. -/
theorem call_tool_parts (lm : Option LMOps) (bk : Backends) (name : String)
    (args : Args) :
    call_tool lm bk name args =
      (match (run_call lm bk name args).1 with
       | .ok es => es
       | .error e => [⟨"Error: " ++ e, true⟩],
       (run_call lm bk name args).2) := by
  unfold call_tool
  rcases run_call lm bk name args with ⟨res, log⟩
  cases res <;> rfl

/-- Every successful branch of the dispatch produces exactly one entry. -/
theorem run_call_ok_singleton (lm : Option LMOps) (bk : Backends) (name : String)
    (args : Args) (es : List Entry) (h : (run_call lm bk name args).1 = .ok es) :
    es.length = 1 := by
  unfold run_call at h
  repeat' split at h
  all_goals (try symm at h)
  all_goals (cases h <;> rfl)

/-- When every backend operation fails with `m`, the dispatch either never
reached a backend or propagated exactly the message `m`. -/
theorem run_call_fail (m : String) (name : String) (args : Args) :
    (run_call (some (failingLM m)) (failingBackends m) name args).2 = [] ∨
    (run_call (some (failingLM m)) (failingBackends m) name args).1 = .error m := by
  unfold run_call
  dsimp only [failingLM, failingBackends]
  repeat' split
  all_goals (first | (left; rfl) | (right; rfl))

/-- A name outside the dispatch table falls through to the
`Unknown tool` branch without touching the arguments or any backend. -/
theorem run_call_unknown (lm : Option LMOps) (bk : Backends) (args : Args)
    (name : String) (h : name ∉ dispatchNames) :
    run_call lm bk name args = (.error ("Unknown tool: " ++ name), []) := by
  simp [dispatchNames] at h
  obtain ⟨h1, h2, h3, h4, h5, h6, h7, h8, h9⟩ := h
  unfold run_call
  repeat' split
  all_goals simp_all

/-! ## Claims -/

/-- C1: for every tool name and argument bag, `call_tool` returns a result
envelope of exactly one entry and never raises outward (it is a total
function into envelopes); and whenever the dispatch routed to a backend
operation that raises a failure with message `m`, the returned envelope is
exactly one entry with `isError = true` and text `"Error: " ++ m`. -/
theorem claim1_call_tool_error_envelope :
    (∀ (lm : Option LMOps) (bk : Backends) (name : String) (args : Args),
      ((call_tool lm bk name args).1).length = 1) ∧
    (∀ (m name : String) (args : Args),
      (call_tool (some (failingLM m)) (failingBackends m) name args).2 ≠ [] →
      (call_tool (some (failingLM m)) (failingBackends m) name args).1
        = [⟨"Error: " ++ m, true⟩]) := by
  constructor
  · intro lm bk name args
    rw [call_tool_parts]
    rcases hr : (run_call lm bk name args).1 with e | es
    · simp
    · simpa using run_call_ok_singleton lm bk name args es hr
  · intro m name args h
    rw [call_tool_parts] at h ⊢
    rcases run_call_fail m name args with h2 | h2
    · simp [h2] at h
    · simp [h2]

/-- C1 witness: a failing file backend surfaces as the single
`Error: boom` entry when `read_file` is invoked with a present path. -/
theorem claim1_call_tool_error_envelope_witness :
    (call_tool (some (failingLM "boom")) (failingBackends "boom") "read_file"
        [("path", Value.str "notes.txt")]).1
      = [⟨"Error: boom", true⟩] :=
  claim1_call_tool_error_envelope.2 "boom" "read_file"
    [("path", Value.str "notes.txt")]
    (by intro h; simp [call_tool, run_call, pyIndex, lookupA, failingBackends] at h)

/-- C2 counterexample: with only `read_file` enabled, `write_file` is not
in the enabled set, yet invoking it does not return an
`Unknown tool: write_file` error envelope — `call_tool` never consults the
enabled set, routes to the write backend (the log records the write), and
returns a success envelope. -/
theorem claim2_counterexample :
    _is_tool_enabled cfgReadOnly "write_file" = false ∧
    call_tool none okBackends "write_file"
        [("path", .str "out.txt"), ("content", .str "hi")]
      = ([⟨"File written successfully: ok", false⟩],
         [.write_file (.str "out.txt") (.str "hi")]) :=
  ⟨rfl, rfl⟩

/-- C2 amended: the capability listing does omit disabled descriptors (with
only `read_file` enabled it is exactly the `read_file` descriptor), and
names outside the static dispatch table get the `Unknown tool: {name}`
error envelope; but enablement is not checked by `call_tool`, so invoking a
disabled-but-known tool such as `write_file` still routes to its backend. -/
theorem claim2_amended :
    list_tools cfgReadOnly false = [readFileTool] ∧
    list_tools cfgReadOnly true = [readFileTool] ∧
    (∀ (lm : Option LMOps) (bk : Backends) (args : Args) (name : String),
      name ∉ dispatchNames →
      call_tool lm bk name args
        = ([⟨"Error: Unknown tool: " ++ name, true⟩], [])) ∧
    (∀ (bk : Backends) (args : Args) (p c : Value),
      lookupA args "path" = some p → lookupA args "content" = some c →
      (call_tool none bk "write_file" args).2 = [.write_file p c]) := by
  refine ⟨rfl, rfl, ?_, ?_⟩
  · intro lm bk args name h
    rw [call_tool_parts, run_call_unknown lm bk args name h]
    simp [← String.append_assoc]
  · intro bk args p c hp hc
    rw [call_tool_parts]
    simp only [run_call, pyIndex, hp, hc]

/-- C2 amended witness: an unregistered name gets the unknown-tool
envelope, and the disabled `write_file` invocation reaches the backend. -/
theorem claim2_amended_witness :
    call_tool none okBackends "frobnicate" []
      = ([⟨"Error: Unknown tool: frobnicate", true⟩], []) ∧
    (call_tool none okBackends "write_file"
        [("path", .str "out.txt"), ("content", .str "hi")]).2
      = [.write_file (.str "out.txt") (.str "hi")] :=
  ⟨claim2_amended.2.2.1 none okBackends [] "frobnicate" (by decide),
   claim2_amended.2.2.2 okBackends
     [("path", .str "out.txt"), ("content", .str "hi")]
     (.str "out.txt") (.str "hi") rfl rfl⟩

/-- C3 counterexample: `method` is in `call_api`'s schema `required` set,
yet invoking `call_api` without it is not rejected: the dispatch defaults
the method to `"GET"` and routes to the backend, returning a success
envelope instead of a validation-failure envelope. -/
theorem claim3_counterexample :
    dGetD callApiSchema "required" (.list [])
      = .list [.str "url", .str "method"] ∧
    call_tool none okBackends "call_api" [("url", .str "http://example.com")]
      = ([⟨"api response", false⟩],
         [.call_api (.str "http://example.com") (.str "GET") (.dict []) .null]) :=
  ⟨rfl, rfl⟩

/-- C3 amended: omitting a required field that `call_tool` reads by direct
indexing (`path`, `content`, `directory`, `url`, `data`, `operation`,
`prompt`, `messages`) yields the single error envelope whose text is the
`KeyError` rendering `Error: '<field>'`, and the backend is not invoked
(the call log is empty); but `call_api`'s required `method` field is
instead defaulted to `"GET"` and the backend is invoked.  The check is the
`KeyError` of argument access, not a `ValidationFailed` schema validation
(`validate_tool_input` is never called by the dispatch). -/
theorem claim3_amended :
    (∀ (lm : Option LMOps) (bk : Backends) (args : Args),
      lookupA args "path" = none →
      call_tool lm bk "read_file" args = ([⟨"Error: 'path'", true⟩], [])) ∧
    (∀ (lm : Option LMOps) (bk : Backends) (args : Args),
      lookupA args "path" = none →
      call_tool lm bk "write_file" args = ([⟨"Error: 'path'", true⟩], [])) ∧
    (∀ (lm : Option LMOps) (bk : Backends) (args : Args) (p : Value),
      lookupA args "path" = some p → lookupA args "content" = none →
      call_tool lm bk "write_file" args = ([⟨"Error: 'content'", true⟩], [])) ∧
    (∀ (lm : Option LMOps) (bk : Backends) (args : Args),
      lookupA args "directory" = none →
      call_tool lm bk "list_files" args = ([⟨"Error: 'directory'", true⟩], [])) ∧
    (∀ (lm : Option LMOps) (bk : Backends) (args : Args),
      lookupA args "url" = none →
      call_tool lm bk "call_api" args = ([⟨"Error: 'url'", true⟩], [])) ∧
    (∀ (lm : Option LMOps) (bk : Backends) (args : Args),
      lookupA args "data" = none →
      call_tool lm bk "process_data" args = ([⟨"Error: 'data'", true⟩], [])) ∧
    (∀ (lm : Option LMOps) (bk : Backends) (args : Args) (d : Value),
      lookupA args "data" = some d → lookupA args "operation" = none →
      call_tool lm bk "process_data" args = ([⟨"Error: 'operation'", true⟩], [])) ∧
    (∀ (l : LMOps) (bk : Backends) (args : Args),
      lookupA args "prompt" = none →
      call_tool (some l) bk "lm_studio_generate" args
        = ([⟨"Error: 'prompt'", true⟩], [])) ∧
    (∀ (l : LMOps) (bk : Backends) (args : Args),
      lookupA args "messages" = none →
      call_tool (some l) bk "lm_studio_chat" args
        = ([⟨"Error: 'messages'", true⟩], [])) ∧
    (∀ (lm : Option LMOps) (bk : Backends) (args : Args) (u : Value),
      lookupA args "url" = some u → lookupA args "method" = none →
      (call_tool lm bk "call_api" args).2
        = [.call_api u (.str "GET") (dGetD args "headers" (.dict []))
             (dGetD args "body" .null)]) := by
  refine ⟨?_, ?_, ?_, ?_, ?_, ?_, ?_, ?_, ?_, ?_⟩
  · intro lm bk args h
    rw [call_tool_parts]; simp only [run_call, pyIndex, h]; rfl
  · intro lm bk args h
    rw [call_tool_parts]; simp only [run_call, pyIndex, h]; rfl
  · intro lm bk args p hp h
    rw [call_tool_parts]; simp only [run_call, pyIndex, hp, h]; rfl
  · intro lm bk args h
    rw [call_tool_parts]; simp only [run_call, pyIndex, h]; rfl
  · intro lm bk args h
    rw [call_tool_parts]; simp only [run_call, pyIndex, h]; rfl
  · intro lm bk args h
    rw [call_tool_parts]; simp only [run_call, pyIndex, h]; rfl
  · intro lm bk args d hd h
    rw [call_tool_parts]; simp only [run_call, pyIndex, hd, h]; rfl
  · intro l bk args h
    rw [call_tool_parts]; simp only [run_call, pyIndex, h]; rfl
  · intro l bk args h
    rw [call_tool_parts]; simp only [run_call, pyIndex, h]; rfl
  · intro lm bk args u hu h
    rw [call_tool_parts]
    simp only [run_call, pyIndex, hu, dGetD, h]

/-- C3 amended witness: concrete invocations with a missing required field
produce the KeyError envelope with no backend call, while `call_api`
without `method` still reaches the backend. -/
theorem claim3_amended_witness :
    call_tool none okBackends "read_file" []
      = ([⟨"Error: 'path'", true⟩], []) ∧
    call_tool none okBackends "write_file" [("path", .str "a.txt")]
      = ([⟨"Error: 'content'", true⟩], []) ∧
    (call_tool none okBackends "call_api" [("url", .str "http://example.com")]).2
      = [.call_api (.str "http://example.com") (.str "GET") (.dict []) .null] :=
  ⟨claim3_amended.1 none okBackends [] rfl,
   claim3_amended.2.2.1 none okBackends [("path", .str "a.txt")]
     (.str "a.txt") rfl rfl,
   claim3_amended.2.2.2.2.2.2.2.2.2 none okBackends
     [("url", .str "http://example.com")] (.str "http://example.com") rfl rfl⟩

/-- A file system holding one file outside the configured root `/x/data`,
in the sibling directory `/x/data2` that shares `/x/data` as a string
prefix. -/
def escapeFS : String → Option String :=
  fun p => if p = "/x/data2/f" then some "outside secret" else none

/-- C4: the `startswith` containment check is a string-prefix test, not a
descendant test.  The path `../data2/f` under root `/x/data` resolves to
`/x/data2/f`, which is outside the root, yet the check accepts it and
`read_file` returns the content of a file outside the root. -/
theorem claim4_path_prefix_escape :
    pathCheckAllows "/x/data" "../data2/f" = true ∧
    isDescendant "/x/data" (resolvePath (joinPath "/x/data" "../data2/f")) = false ∧
    read_file escapeFS "/x/data" "../data2/f" = .ok "outside secret" :=
  ⟨rfl, rfl, rfl⟩

/-- The gateway's `/v1/models` response body for the given model ids:
`{"data": [{"id": i}, ...]}`. -/
def modelsBody (ids : List String) : Value :=
  .dict [("data", .list (ids.map (fun i => .dict [("id", .str i)])))]

/-- C5: with the gateway reporting models `["m1", "m2"]` and no
caller-specified model, `generate_text` issues its completion POST with
`model = "m1"` (the request log is exactly the models GET followed by the
completion POST carrying `"m1"`); with an empty model list it fails with
the no-models failure and issues no completion request. -/
theorem claim5_default_model_resolution
    (c₁ c₂ : HttpClient) (base : String) (prompt max_tokens temperature : Value)
    (st₁ st₂ : Nat)
    (h₁ : c₁.get (base ++ "/v1/models") = .resp st₁ (modelsBody ["m1", "m2"]))
    (h₂ : c₂.get (base ++ "/v1/models") = .resp st₂ (modelsBody [])) :
    (generate_text c₁ base prompt .null max_tokens temperature).2
      = [.get (base ++ "/v1/models"),
         .post (base ++ "/v1/completions")
           (completionBody (.str "m1") prompt max_tokens temperature)] ∧
    generate_text c₂ base prompt .null max_tokens temperature
      = (.error "No models available in LM Studio", [.get (base ++ "/v1/models")]) := by
  constructor
  · have hres : resolveModelFromBody (modelsBody ["m1", "m2"]) = .ok (.str "m1") := rfl
    unfold generate_text
    simp only [show pyTruthy Value.null = false from rfl, Bool.false_eq_true,
      if_false, h₁, hres]
    cases hp : c₁.post (base ++ "/v1/completions")
        (completionBody (.str "m1") prompt max_tokens temperature) with
    | resp st rb => simp only [hp]; split <;> rfl
    | connectError => simp only [hp]; rfl
  · have hres : resolveModelFromBody (modelsBody []) =
        .error "No models available in LM Studio" := rfl
    unfold generate_text
    simp only [show pyTruthy Value.null = false from rfl, Bool.false_eq_true,
      if_false, h₂, hres]

/-- A stub gateway reporting the given models and accepting every POST. -/
def stubGateway (ids : List String) : HttpClient :=
  { get := fun _ => .resp 200 (modelsBody ids)
    post := fun _ _ => .resp 200 (.dict [
      ("choices", .list [.dict [("text", .str "hello"),
                                ("finish_reason", .str "stop")]]),
      ("usage", .dict [("total_tokens", .num 5)])]) }

/-- C5 witness: the concrete two-model and zero-model gateways. -/
theorem claim5_default_model_resolution_witness :
    (generate_text (stubGateway ["m1", "m2"]) "http://localhost:1234"
        (.str "p") .null (.num 100) (.float (7/10))).2
      = [.get "http://localhost:1234/v1/models",
         .post "http://localhost:1234/v1/completions"
           (completionBody (.str "m1") (.str "p") (.num 100) (.float (7/10)))] ∧
    generate_text (stubGateway []) "http://localhost:1234"
        (.str "p") .null (.num 100) (.float (7/10))
      = (.error "No models available in LM Studio",
         [.get "http://localhost:1234/v1/models"]) :=
  claim5_default_model_resolution (stubGateway ["m1", "m2"]) (stubGateway [])
    "http://localhost:1234" (.str "p") (.num 100) (.float (7/10)) 200 200 rfl rfl

/-- Reading the `id` of each model dict in a list succeeds and yields the
`m.get("id", "unknown")` values. -/
theorem mapGetAttr_dicts (ds : List (List (String × Value))) :
    mapGetAttr "id" (.str "unknown") (ds.map Value.dict)
      = .ok (ds.map (fun d => dGetD d "id" (.str "unknown"))) := by
  induction ds with
  | nil => rfl
  | cons d t ih => simp [mapGetAttr, pyGetAttr, ih]

/-- C6: `test_connection` never raises — for every gateway behavior it
returns a record whose `status` is `"connected"` or `"disconnected"`; an
unreachable gateway yields the disconnected record carrying the error
message, and a reachable gateway reporting `N` model dicts yields the
connected record with `models_count = N`. -/
theorem claim6_test_connection_total
    (c c₁ c₂ : HttpClient) (base base₁ base₂ : String)
    (st : Nat) (ds : List (List (String × Value)))
    (h₁ : c₁.get (base₁ ++ "/v1/models") = .connectError)
    (h₂ : c₂.get (base₂ ++ "/v1/models")
        = .resp st (.dict [("data", .list (ds.map Value.dict))]))
    (hst : st < 400) :
    (pyGetAttr (test_connection c base) "status" .null = .ok (.str "connected") ∨
     pyGetAttr (test_connection c base) "status" .null = .ok (.str "disconnected")) ∧
    test_connection c₁ base₁
      = .dict [("status", .str "disconnected"), ("url", .str base₁),
               ("error", .str "Cannot connect to LM Studio. Make sure it's running.")] ∧
    test_connection c₂ base₂
      = .dict [("status", .str "connected"), ("url", .str base₂),
               ("models_count", .num ds.length),
               ("models", .list (ds.map (fun d => dGetD d "id" (.str "unknown"))))] := by
  refine ⟨?_, ?_, ?_⟩
  · unfold test_connection
    rcases (list_models c base).1 with e | models
    · right; rfl
    · dsimp only
      rcases h : connectedModels models with e | ⟨n, ids⟩ <;> simp only [h]
      · right; rfl
      · left; rfl
  · unfold test_connection list_models
    rw [h₁]
  · unfold test_connection list_models
    rw [h₂]
    simp [Nat.not_le.mpr hst, connectedModels, pyGetAttr, dGetD, lookupA,
      mapGetAttr_dicts ds]

/-- A gateway that refuses every connection. -/
def downGateway : HttpClient :=
  { get := fun _ => .connectError, post := fun _ _ => .connectError }

/-- C6 witness: the unreachable gateway reports disconnected with the
error message; the two-model gateway reports connected with count 2. -/
theorem claim6_test_connection_total_witness :
    (pyGetAttr (test_connection downGateway "http://localhost:1234") "status" .null
        = .ok (.str "connected") ∨
     pyGetAttr (test_connection downGateway "http://localhost:1234") "status" .null
        = .ok (.str "disconnected")) ∧
    test_connection downGateway "http://localhost:1234"
      = .dict [("status", .str "disconnected"), ("url", .str "http://localhost:1234"),
               ("error", .str "Cannot connect to LM Studio. Make sure it's running.")] ∧
    test_connection (stubGateway ["m1", "m2"]) "http://localhost:1234"
      = .dict [("status", .str "connected"), ("url", .str "http://localhost:1234"),
               ("models_count", .num 2),
               ("models", .list [.str "m1", .str "m2"])] :=
  claim6_test_connection_total downGateway downGateway (stubGateway ["m1", "m2"])
    "http://localhost:1234" "http://localhost:1234" "http://localhost:1234"
    200 [[("id", .str "m1")], [("id", .str "m2")]] rfl rfl (by decide)

/-- C7: when the configuration file is absent or malformed, `load_config`
still returns (construction succeeds with the empty configuration), every
tool is reported disabled, the tool listing is empty, and the resource
listing is empty — fail-closed defaults. -/
theorem claim7_fail_closed :
    (∀ name, _is_tool_enabled (load_config .absent) name = false) ∧
    (∀ name, _is_tool_enabled (load_config .malformed) name = false) ∧
    (∀ lm, list_tools (load_config .absent) lm = []) ∧
    (∀ lm, list_tools (load_config .malformed) lm = []) ∧
    list_resources (load_config .absent) = [] ∧
    list_resources (load_config .malformed) = [] := by
  refine ⟨fun _ => rfl, fun _ => rfl, fun lm => ?_, fun lm => ?_, rfl, rfl⟩ <;>
    cases lm <;> rfl

/-- C8: a filter condition that does not contain `"=="` is unparseable for
the evaluator; every item (of any shape) then satisfies the condition, so
the filter returns the list unchanged. -/
theorem claim8_unparseable_condition_passes (xs : List Value) (cond : String)
    (h : containsSub cond "==" = false) :
    filter_data (.list xs) (some cond) = .list xs ∧
    ∀ item, evaluate_condition item cond = true := by
  have heval : ∀ item, evaluate_condition item cond = true := by
    intro item
    unfold evaluate_condition
    cases item <;> simp [h]
  refine ⟨?_, heval⟩
  unfold filter_data
  by_cases hc : cond = ""
  · simp [hc]
  · simp only [hc, ne_eq, not_false_eq_true, if_pos]
    exact congrArg Value.list (List.filter_eq_self.mpr (fun a _ => heval a))

/-- C8 witness: the condition `"status is active"` contains no `"=="`;
filtering a two-element list with it returns the list unchanged. -/
theorem claim8_unparseable_condition_passes_witness :
    filter_data (.list [.dict [("status", .str "active")], .num 3])
        (some "status is active")
      = .list [.dict [("status", .str "active")], .num 3] ∧
    ∀ item, evaluate_condition item "status is active" = true :=
  claim8_unparseable_condition_passes
    [.dict [("status", .str "active")], .num 3] "status is active" (by decide)

/-- C9: `validate_tool_input` looks for the required-field list at
`schema["properties"]["required"]`; whenever `properties` has no
`required` key — as in every one of this server's nine tool schemas, which
keep `required` at the schema top level — it validates any argument bag,
including the empty one. -/
theorem claim9_validate_tool_input_vacuous :
    (∀ (tool_name : String) (arguments : Args)
       (schema ps : List (String × Value)),
      dGetD schema "properties" (.dict []) = .dict ps →
      lookupA ps "required" = none →
      validate_tool_input tool_name arguments schema = true) ∧
    (∀ args, validate_tool_input "read_file" args readFileSchema = true) ∧
    (∀ args, validate_tool_input "write_file" args writeFileSchema = true) ∧
    (∀ args, validate_tool_input "list_files" args listFilesSchema = true) ∧
    (∀ args, validate_tool_input "call_api" args callApiSchema = true) ∧
    (∀ args, validate_tool_input "process_data" args processDataSchema = true) ∧
    (∀ args, validate_tool_input "lm_studio_generate" args lmGenerateSchema = true) ∧
    (∀ args, validate_tool_input "lm_studio_chat" args lmChatSchema = true) ∧
    (∀ args, validate_tool_input "lm_studio_list_models" args lmListModelsSchema = true) ∧
    (∀ args, validate_tool_input "lm_studio_test_connection" args lmTestConnectionSchema = true) := by
  refine ⟨?_, fun _ => rfl, fun _ => rfl, fun _ => rfl, fun _ => rfl, fun _ => rfl,
    fun _ => rfl, fun _ => rfl, fun _ => rfl, fun _ => rfl⟩
  intro tool_name arguments schema ps h1 h2
  unfold validate_tool_input
  rw [h1]
  simp [dGetD, h2]

/-- C9 witness: the empty argument bag passes validation against the
`write_file` schema even though that schema requires `path` and
`content`. -/
theorem claim9_validate_tool_input_vacuous_witness :
    validate_tool_input "write_file" [] writeFileSchema = true :=
  claim9_validate_tool_input_vacuous.1 "write_file" [] writeFileSchema
    writeFileProps rfl rfl

/-- C10: with the inference adapter absent (`lm_studio = None`), invoking
any of the four LM Studio tool names produces the single-entry envelope
`Error: Unknown tool: {name}` with no backend call — exactly the shape
produced for a name that was never registered. -/
theorem claim10_lm_disabled_unknown_tool :
    (∀ (bk : Backends) (args : Args),
      call_tool none bk "lm_studio_generate" args
        = ([⟨"Error: Unknown tool: lm_studio_generate", true⟩], [])) ∧
    (∀ (bk : Backends) (args : Args),
      call_tool none bk "lm_studio_chat" args
        = ([⟨"Error: Unknown tool: lm_studio_chat", true⟩], [])) ∧
    (∀ (bk : Backends) (args : Args),
      call_tool none bk "lm_studio_list_models" args
        = ([⟨"Error: Unknown tool: lm_studio_list_models", true⟩], [])) ∧
    (∀ (bk : Backends) (args : Args),
      call_tool none bk "lm_studio_test_connection" args
        = ([⟨"Error: Unknown tool: lm_studio_test_connection", true⟩], [])) ∧
    (∀ (lm : Option LMOps) (bk : Backends) (args : Args) (name : String),
      name ∉ dispatchNames →
      call_tool lm bk name args
        = ([⟨"Error: Unknown tool: " ++ name, true⟩], [])) := by
  refine ⟨fun _ _ => rfl, fun _ _ => rfl, fun _ _ => rfl, fun _ _ => rfl, ?_⟩
  intro lm bk args name h
  rw [call_tool_parts, run_call_unknown lm bk args name h]
  simp [← String.append_assoc]

/-- C10 witness: with no adapter, `lm_studio_generate` and the
never-registered name `frobnicate2` produce the same-shaped envelope. -/
theorem claim10_lm_disabled_unknown_tool_witness :
    call_tool none okBackends "lm_studio_generate" []
      = ([⟨"Error: Unknown tool: lm_studio_generate", true⟩], []) ∧
    call_tool none okBackends "frobnicate2" []
      = ([⟨"Error: Unknown tool: frobnicate2", true⟩], []) :=
  ⟨claim10_lm_disabled_unknown_tool.1 okBackends [],
   claim10_lm_disabled_unknown_tool.2.2.2.2 none okBackends [] "frobnicate2"
     (by decide)⟩
